import Mathlib

/-!
# Verification of the aws-oidc-sts identity-material provisioning core

A shallow embedding of the Go package `github.com/chuhaoyuu/aws-oidc-sts`:
RSA key-pair lifecycle (`pkg/providers/create_rsa_key_pair.go`), key parsing,
JWKS assembly and the provisioning workflow (`pkg/providers/create_jwks.go`),
JWT signing (`CreateJWT`), and the AWS-facing calls
(`pkg/providers/aws/client.go`), modelled as pure state-passing functions.

Conventions of the embedding:
* Byte strings are `List Nat`.  DER encodings of RSA key components are
  modelled as tagged lists that are injective in the key components, and the
  PEM envelope as a marker byte followed by a block-type tag, so that encode
  and decode are real inverses exactly as for the Go `x509`/`pem` pairs.
* SHA-256 is an opaque parameter `sha256 : Bytes → Bytes` threaded through
  the functions that call it (the claims only use that it is a function of
  the DER bytes); hex encoding is implemented concretely, lowercase, as
  `encoding/hex` does.
* The filesystem visible to the program (the `tls/` directory with the two
  key files and the JWKS file) is an explicit state record; fallible
  host/cloud operations (`os.MkdirAll`, `rsa.GenerateKey`, `os.WriteFile`,
  the AWS SDK calls) are oracles supplied in environment records.
* Go functions returning `error` become `Except String`; a Go `panic` is a
  distinct outcome (`GoResult.panicked` / `Outcome.panicked`), never an
  `error` return.  `fmt.Errorf("p: %w", err)` becomes `wrapErr "p" msg`.
* The clock is a stream `now : Nat → Nat`; the k-th call of `time.Now()`
  inside `CreateJWT` reads `now k` (the code calls it twice).
-/

namespace AwsOidcSts

/-! ## Constants (pkg/providers: const block) -/

def RSAPrivateKeyFile : String := "private-key.pem"

def RSAPublicKeyFile : String := "public-key.pem"

def TLSDirName : String := "tls"

def JWTIssuer : String := "https://example.com"

def JWTAudience : String := "sts.amazonaws.com"

def JWTSubject : String := "aws-oidc-sts"

def JWKSFileName : String := "jwks.json"

def JWKSUsage : String := "sig"

/-- The string form of `jwa.RS256()`. -/
def AlgRS256 : String := "RS256"

/-! ## RSA keys and their encodings -/

abbrev Bytes := List Nat

structure RSAPublicKey where
  n : Nat
  e : Nat
deriving DecidableEq, Repr

structure RSAPrivateKey where
  n : Nat
  e : Nat
  d : Nat
deriving DecidableEq, Repr

/-- `privateKey.PublicKey` in Go: the public component of a private key. -/
def RSAPrivateKey.publicKey (k : RSAPrivateKey) : RSAPublicKey := ⟨k.n, k.e⟩

/-- Bit length of the key (bit length of the modulus), `rsa.PrivateKey.Size`-style. -/
def RSAPrivateKey.bitLen (k : RSAPrivateKey) : Nat := Nat.size k.n

/-- The dynamic type of the `any` value handled by `keyIDFromPublicKey` /
returned by `x509.ParsePKIXPublicKey`: an RSA key, some other supported key
type (which `x509.MarshalPKIXPublicKey` still accepts), or a value that
`MarshalPKIXPublicKey` rejects. -/
inductive GoPublicKey where
  | rsa (k : RSAPublicKey)
  | nonRSA (tag : Nat)
  | raw (tag : Nat)
deriving DecidableEq, Repr

/-- `x509.MarshalPKCS1PrivateKey` (total in Go as well). -/
def marshalPKCS1PrivateKey (k : RSAPrivateKey) : Bytes := [0, k.n, k.e, k.d]

/-- `x509.ParsePKCS1PrivateKey`. -/
def parsePKCS1PrivateKey : Bytes → Option RSAPrivateKey
  | [0, n, e, d] => some ⟨n, e, d⟩
  | _ => none

/-- `x509.MarshalPKIXPublicKey`: fails exactly on unsupported key types. -/
def marshalPKIXPublicKey : GoPublicKey → Option Bytes
  | .rsa k => some [1, k.n, k.e]
  | .nonRSA tag => some [2, tag]
  | .raw _ => none

/-- `x509.ParsePKIXPublicKey`: never yields a value that fails to re-marshal,
matching Go, where every key type the parser can produce is marshalable. -/
def parsePKIXPublicKey : Bytes → Option GoPublicKey
  | [1, n, e] => some (.rsa ⟨n, e⟩)
  | [2, tag] => some (.nonRSA tag)
  | _ => none

/-- Marker standing for the `-----BEGIN ...-----` framing. -/
def pemMagic : Nat := 45

def rsaPrivateKeyBlockType : Nat := 1

def publicKeyBlockType : Nat := 2

/-- `pem.EncodeToMemory` of a block with the given type tag and DER body. -/
def pemEncodeToMemory (blockType : Nat) (body : Bytes) : Bytes :=
  pemMagic :: blockType :: body

/-- `pem.Decode`: yields the block (type tag and DER body) or nothing. -/
def pemDecode : Bytes → Option (Nat × Bytes)
  | m :: t :: body => if m = pemMagic then some (t, body) else none
  | _ => none

/-! ## Filesystem state and JWK values -/

structure FileData where
  content : Bytes
  mode : Nat
deriving DecidableEq, Repr

/-- Key material carried by a `jwk.Key`. -/
inductive JWKMaterial where
  | rsaPrivate (k : RSAPrivateKey)
  | rsaPublic (k : RSAPublicKey)
deriving DecidableEq, Repr

/-- A `jwk.Key`: key material plus the header fields this program sets. -/
structure JWKKey where
  material : JWKMaterial
  kid : Option String
  keyUse : Option String
  alg : Option String
deriving DecidableEq, Repr

/-- The `tls/` subdirectory of the target directory: the three files the
program reads and writes.  The JWKS file is kept at the structured level
(the key list its JSON serialization denotes). -/
structure FS where
  tlsDirExists : Bool
  privateKeyFile : Option FileData
  publicKeyFile : Option FileData
  jwksFile : Option (List JWKKey)
deriving DecidableEq, Repr

/-- `fmt.Errorf("prefix: %w", err)`. -/
def wrapErr (ctx msg : String) : String := ctx ++ ": " ++ msg

/-! ## CreateRSAKeyPair (pkg/providers/create_rsa_key_pair.go) -/

/-- Host oracles used by `CreateRSAKeyPair`: the result of `os.MkdirAll`
when the directory is absent (on an existing directory it is a no-op
success), of `rsa.GenerateKey(rand.Reader, bits)`, and of the two
`os.WriteFile` calls. -/
structure KeyGenEnv where
  mkdirOk : Bool
  generateKey : Nat → Except String RSAPrivateKey
  writePrivateOk : Bool
  writePublicOk : Bool

def createRSAKeyPair (env : KeyGenEnv) (fs : FS) : Except String Unit × FS :=
  if !fs.tlsDirExists && !env.mkdirOk then
    (.error (wrapErr "failed to create directory for RSA keys" "mkdir"), fs)
  else
    let fs1 : FS := { fs with tlsDirExists := true }
    let skipGeneration := fs1.privateKeyFile.isSome || fs1.publicKeyFile.isSome
    if skipGeneration then
      (.ok (), fs1)
    else
      match env.generateKey 4096 with
      | .error e => (.error (wrapErr "failed to generate RSA private key" e), fs1)
      | .ok privateKey =>
        let privateKeyPEM :=
          pemEncodeToMemory rsaPrivateKeyBlockType (marshalPKCS1PrivateKey privateKey)
        match marshalPKIXPublicKey (.rsa privateKey.publicKey) with
        | none => (.error (wrapErr "failed to marshal public key" "marshal"), fs1)
        | some publicKeyBytes =>
          let publicKeyPEM := pemEncodeToMemory publicKeyBlockType publicKeyBytes
          if !env.writePrivateOk then
            (.error (wrapErr "failed to write private key to file" "write"), fs1)
          else
            let fs2 : FS := { fs1 with privateKeyFile := some ⟨privateKeyPEM, 0o600⟩ }
            if !env.writePublicOk then
              (.error (wrapErr "failed to write public key to file" "write"), fs2)
            else
              (.ok (), { fs2 with publicKeyFile := some ⟨publicKeyPEM, 0o644⟩ })

/-! ## Key parsing (ParsePrivateKeyFromFile / ParsePublicKeyFromFile) -/

/-- `ParsePrivateKeyFromFile`: read `tls/private-key.pem`, `pem.Decode`,
`x509.ParsePKCS1PrivateKey`.  As in the Go code, the PEM block type is not
inspected, only its body is parsed. -/
def ParsePrivateKeyFromFile (fs : FS) : Except String RSAPrivateKey :=
  match fs.privateKeyFile with
  | none => .error (wrapErr "failed to read private key file" "open")
  | some fd =>
    match pemDecode fd.content with
    | none => .error "failed to decode PEM block containing private key"
    | some (_, der) =>
      match parsePKCS1PrivateKey der with
      | none => .error (wrapErr "failed to parse private key" "asn1")
      | some k => .ok k

/-- `ParsePublicKeyFromFile`: read `tls/public-key.pem`, `pem.Decode`,
`x509.ParsePKIXPublicKey`. -/
def ParsePublicKeyFromFile (fs : FS) : Except String GoPublicKey :=
  match fs.publicKeyFile with
  | none => .error (wrapErr "failed to read public key file" "open")
  | some fd =>
    match pemDecode fd.content with
    | none => .error "failed to decode PEM block containing public key"
    | some (_, der) =>
      match parsePKIXPublicKey der with
      | none => .error (wrapErr "failed to parse public key" "asn1")
      | some k => .ok k

/-! ## Key-ID derivation (keyIDFromPublicKey) -/

/-- An `encoding/hex` digit: `0`-`9` then `a`-`f` (lowercase). -/
def hexDigit (n : Nat) : Char :=
  if n < 10 then Char.ofNat (48 + n) else Char.ofNat (87 + n)

/-- `hex.EncodeToString`, two lowercase digits per byte. -/
def hexEncodeBytes : Bytes → List Char
  | [] => []
  | b :: rest => hexDigit (b % 256 / 16) :: hexDigit (b % 256 % 16) :: hexEncodeBytes rest

def hexEncodeToString (b : Bytes) : String := String.mk (hexEncodeBytes b)

def isLowerHexChar (c : Char) : Bool :=
  (48 ≤ c.toNat && c.toNat ≤ 57) || (97 ≤ c.toNat && c.toNat ≤ 102)

/-- Result of a Go function that either returns normally or panics. -/
inductive GoResult (α : Type) where
  | ok (a : α)
  | panicked (msg : String)
deriving DecidableEq, Repr

/-- `keyIDFromPublicKey`: hex-encoded SHA-256 of the PKIX DER encoding of
the public key; on marshal failure the Go function panics instead of
returning an error. -/
def keyIDFromPublicKey (sha256 : Bytes → Bytes) (publicKey : GoPublicKey) :
    GoResult String :=
  match marshalPKIXPublicKey publicKey with
  | none => .panicked (wrapErr "failed to marshal public key" "marshal")
  | some publicKeyBytes => .ok (hexEncodeToString (sha256 publicKeyBytes))

/-! ## JWK operations (lestrrat-go/jwx, as used by this program) -/

/-- `jwk.Import` of an `*rsa.PrivateKey`: always succeeds for this type. -/
def jwkImport (k : RSAPrivateKey) : Except String JWKKey :=
  .ok { material := .rsaPrivate k, kid := none, keyUse := none, alg := none }

/-- `key.Set(jwk.KeyIDKey, v)` — cannot fail for a string value. -/
def JWKKey.setKid (k : JWKKey) (v : String) : JWKKey := { k with kid := some v }

/-- `key.Set(jwk.KeyUsageKey, v)` — cannot fail for a string value. -/
def JWKKey.setKeyUse (k : JWKKey) (v : String) : JWKKey := { k with keyUse := some v }

/-- `key.Set(jwk.AlgorithmKey, jwa.RS256())` — cannot fail. -/
def JWKKey.setAlg (k : JWKKey) (v : String) : JWKKey := { k with alg := some v }

/-- `jwk.PublicKeyOf`: the public counterpart of a key, with all non-secret
fields (kid, use, alg) carried over; a public key maps to itself. -/
def jwkPublicKeyOf (k : JWKKey) : Except String JWKKey :=
  match k.material with
  | .rsaPrivate pk => .ok { k with material := .rsaPublic pk.publicKey }
  | .rsaPublic _ => .ok k

/-! ## CreateJSONWebKeySet (pkg/providers/create_jwks.go) -/

/-- Outcome of a Go call that may return a value, return an error, or
propagate a panic raised below it. -/
inductive Outcome (α : Type) where
  | ok (a : α)
  | err (msg : String)
  | panicked (msg : String)
deriving DecidableEq, Repr

/-- Host oracle for `CreateJSONWebKeySet`: the result of the
`os.WriteFile` call on `tls/jwks.json`. -/
structure JwksEnv where
  writeJwksOk : Bool

def CreateJSONWebKeySet (sha256 : Bytes → Bytes) (env : JwksEnv) (fs : FS) :
    Outcome JWKKey × FS :=
  match ParsePrivateKeyFromFile fs with
  | .error e => (.err (wrapErr "failed to parse private key" e), fs)
  | .ok privateKey =>
    match ParsePublicKeyFromFile fs with
    -- NB: the Go code wraps this failure with the same prefix as the
    -- private-key failure ("failed to parse private key").
    | .error e => (.err (wrapErr "failed to parse private key" e), fs)
    | .ok publicKey =>
      match keyIDFromPublicKey sha256 publicKey with
      | .panicked m => (.panicked m, fs)
      | .ok keyID =>
        match jwkImport privateKey with
        | .error e => (.err (wrapErr "failed to import private key into JWK" e), fs)
        | .ok jwkKey0 =>
          let jwkPrivateKey := ((jwkKey0.setKid keyID).setKeyUse JWKSUsage).setAlg AlgRS256
          match jwkPublicKeyOf jwkPrivateKey with
          | .error e =>
            (.err (wrapErr "failed to create public key from private key" e), fs)
          | .ok jwkPublicKey =>
            -- jwk.NewSet() then AddKey(jwkPublicKey): only the public key
            -- enters the set; json.MarshalIndent cannot fail on it.
            let jwkSet : List JWKKey := [jwkPublicKey]
            if env.writeJwksOk then
              (.ok jwkPrivateKey, { fs with jwksFile := some jwkSet })
            else
              (.err (wrapErr "failed to write JWK Set to file" "write"), fs)

/-! ## RS256 signing and verification, CreateJWT -/

def rsaSign (k : RSAPrivateKey) (m : Nat) : Nat := (m % k.n) ^ k.d % k.n

def rsaVerify (pk : RSAPublicKey) (m s : Nat) : Bool :=
  s ^ pk.e % pk.n == m % pk.n

/-- A functionally correct RSA key pair: signing then verifying recovers the
(reduced) message. -/
def ValidKeyPair (k : RSAPrivateKey) : Prop :=
  ∀ m < k.n, (m ^ k.d % k.n) ^ k.e % k.n = m

instance (k : RSAPrivateKey) : Decidable (ValidKeyPair k) :=
  inferInstanceAs (Decidable (∀ m < k.n, _ = m))

structure JWTClaims where
  iss : String
  aud : String
  sub : String
  exp : Nat
  iat : Nat
deriving DecidableEq, Repr

structure SignedJWT where
  claims : JWTClaims
  signature : Nat
deriving DecidableEq, Repr

/-- `jwt.Sign(token, jwt.WithKey(jwa.RS256(), signingKey))`: RS256 over the
digest of the token, requires private key material. -/
def jwtSignRS256 (digest : JWTClaims → Nat) (t : JWTClaims) (k : JWKKey) :
    Except String Nat :=
  match k.material with
  | .rsaPrivate pk => .ok (rsaSign pk (digest t))
  | .rsaPublic _ => .error "cannot sign with a public key"

/-- RS256 verification of a signed token against a JWK (a private JWK
verifies with its public component). -/
def jwtVerifyRS256 (digest : JWTClaims → Nat) (t : JWTClaims) (s : Nat)
    (k : JWKKey) : Bool :=
  match k.material with
  | .rsaPublic pk => rsaVerify pk (digest t) s
  | .rsaPrivate pk => rsaVerify pk.publicKey (digest t) s

/-- `CreateJWT` (create_jwt.go): fixed iss/aud/sub claims; `exp` is taken
from the FIRST `time.Now()` call plus 24 hours (86400 s) and `iat` from a
SECOND, later `time.Now()` call; the token is then signed with RS256. -/
def CreateJWT (digest : JWTClaims → Nat) (now : Nat → Nat) (signingKey : JWKKey) :
    Except String SignedJWT :=
  let token : JWTClaims :=
    { iss := JWTIssuer, aud := JWTAudience, sub := JWTSubject,
      exp := now 0 + 86400, iat := now 1 }
  match jwtSignRS256 digest token signingKey with
  | .error e => .error (wrapErr "failed to sign JWT token" e)
  | .ok s => .ok { claims := token, signature := s }

/-! ## The cloud-facing collaborators and the provisioning workflow
(CreateIdentityProvider, pkg/providers/create_jwks.go + aws/client.go) -/

structure CallerIdentity where
  account : String
  arn : String
  userId : String
deriving DecidableEq, Repr

/-- The `s3.CreateBucketInput` fields this program sets: bucket name and the
`CreateBucketConfiguration.LocationConstraint`. -/
structure CreateBucketInput where
  bucket : String
  locationConstraint : String
deriving DecidableEq, Repr

/-- Cloud oracles: `awsProvider.NewAwsFromConfig` (client resolution),
`AwsClientIdentity` (STS GetCallerIdentity, one call), and `CreateS3Bucket`
(S3 CreateBucket, one call, returning the bucket location). -/
structure CloudEnv where
  newAwsFromConfig : String → Except String Unit
  getCallerIdentity : Except String CallerIdentity
  createBucket : CreateBucketInput → Except String String

/-- The observable actions the workflow could take.  `ensureKeyPair` and
`headBucketCheck` are in the alphabet only so that their absence from every
trace is a provable statement: the code never performs them. -/
inductive Ev where
  | ensureKeyPair
  | buildJWKS
  | signJWT
  | resolveClient (region : String)
  | verifyIdentity
  | headBucketCheck (bucket : String)
  | callCreateBucket (input : CreateBucketInput)
deriving DecidableEq, Repr

/-- `CreateIdentityProvider(filePath, bucketName, region)`: the workflow as
written — build the JWKS (which presupposes existing key files), sign a JWT,
resolve the AWS client, fetch the caller identity, create the S3 bucket.
Each attempted step is recorded in the returned trace; each failure is
wrapped and returned at once.  No argument validation is performed. -/
def CreateIdentityProvider (sha256 : Bytes → Bytes) (digest : JWTClaims → Nat)
    (now : Nat → Nat) (jenv : JwksEnv) (cenv : CloudEnv)
    (bucketName region : String) (fs : FS) : Outcome Unit × FS × List Ev :=
  match CreateJSONWebKeySet sha256 jenv fs with
  | (.err e, fs1) =>
    (.err (wrapErr "failed to create JSON Web Key Set" e), fs1, [.buildJWKS])
  | (.panicked m, fs1) => (.panicked m, fs1, [.buildJWKS])
  | (.ok jwkKey, fs1) =>
    match CreateJWT digest now jwkKey with
    | .error e =>
      (.err (wrapErr "failed to create JWT" e), fs1, [.buildJWKS, .signJWT])
    | .ok _signedJWT =>
      match cenv.newAwsFromConfig region with
      | .error e =>
        (.err (wrapErr "failed to create AWS client" e), fs1,
          [.buildJWKS, .signJWT, .resolveClient region])
      | .ok _ =>
        match cenv.getCallerIdentity with
        | .error e =>
          (.err (wrapErr "failed to get AWS client identity" e), fs1,
            [.buildJWKS, .signJWT, .resolveClient region, .verifyIdentity])
        | .ok _identity =>
          let input : CreateBucketInput := ⟨bucketName, region⟩
          match cenv.createBucket input with
          | .error e =>
            (.err (wrapErr "failed to create S3 bucket" e), fs1,
              [.buildJWKS, .signJWT, .resolveClient region, .verifyIdentity,
                .callCreateBucket input])
          | .ok _location =>
            (.ok (), fs1,
              [.buildJWKS, .signJWT, .resolveClient region, .verifyIdentity,
                .callCreateBucket input])

/-- The complete step trace of a fully successful run. -/
def fullTrace (bucketName region : String) : List Ev :=
  [.buildJWKS, .signJWT, .resolveClient region, .verifyIdentity,
    .callCreateBucket ⟨bucketName, region⟩]

/-- The step sequence the specification describes for the workflow, which
opens with an ensure-key-pair step. -/
def specTrace (bucketName region : String) : List Ev :=
  .ensureKeyPair :: fullTrace bucketName region

/-! ## Concrete fixtures used by witnesses and counterexamples -/

/-- A small functionally correct RSA triple (n = 3 · 11, e·d = 21 ≡ 1 mod λ(33)). -/
def kDemo : RSAPrivateKey := ⟨33, 3, 7⟩

/-- A 4096-bit key as the generator oracle returns it. -/
def kGen : RSAPrivateKey := ⟨2 ^ 4095, 65537, 1⟩

/-- A stand-in hash function for the `sha256` parameter. -/
def shaDemo : Bytes → Bytes := fun b => [b.length % 256]

/-- A stand-in signing digest, small enough to be a residue mod 33. -/
def digestDemo : JWTClaims → Nat := fun _ => 5

/-- A clock that never advances between readings. -/
def nowConst : Nat → Nat := fun _ => 1000

/-- A clock that advances one second between consecutive readings. -/
def nowTick : Nat → Nat := fun k => 1000 + k

def fsEmpty : FS := ⟨false, none, none, none⟩

/-- A target directory holding the PEM files of `kDemo`. -/
def fsDemo : FS where
  tlsDirExists := true
  privateKeyFile :=
    some ⟨pemEncodeToMemory rsaPrivateKeyBlockType (marshalPKCS1PrivateKey kDemo), 0o600⟩
  publicKeyFile := some ⟨pemEncodeToMemory publicKeyBlockType [1, 33, 3], 0o644⟩
  jwksFile := none

/-- `fsDemo` with the public-key file removed. -/
def fsNoPub : FS := { fsDemo with publicKeyFile := none }

def jenvDemo : JwksEnv := ⟨true⟩

def envGenDemo : KeyGenEnv where
  mkdirOk := true
  generateKey := fun bits => if bits = 4096 then .ok kGen else .error "unexpected bit size"
  writePrivateOk := true
  writePublicOk := true

def ciDemo : CallerIdentity :=
  ⟨"123456789012", "arn:aws:iam::123456789012:user/demo", "AIDADEMO"⟩

def cenvDemo : CloudEnv where
  newAwsFromConfig := fun _ => .ok ()
  getCallerIdentity := .ok ciDemo
  createBucket := fun input => .ok ("/" ++ input.bucket)

def kidDemo : String := hexEncodeToString (shaDemo [1, 33, 3])

/-- The signing-key handle `CreateJSONWebKeySet` returns on `fsDemo`. -/
def handleDemo : JWKKey :=
  { material := .rsaPrivate kDemo, kid := some kidDemo,
    keyUse := some JWKSUsage, alg := some AlgRS256 }

/-- The public entry persisted in the JWKS for `fsDemo`. -/
def entryDemo : JWKKey :=
  { material := .rsaPublic kDemo.publicKey, kid := some kidDemo,
    keyUse := some JWKSUsage, alg := some AlgRS256 }

def fsDemoAfter : FS := { fsDemo with jwksFile := some [entryDemo] }

/-! ## Claim C3: skip-if-present behaviour of CreateRSAKeyPair -/

/-- C3: in a target directory where the private-key file or the public-key
file (or both) already exists, `CreateRSAKeyPair` generates no key material,
writes to neither file, and returns success; consequently a second call after
any successful call leaves the state byte-for-byte unchanged and succeeds. -/
theorem createRSAKeyPair_skip_idempotent :
    (∀ (env : KeyGenEnv) (fs : FS), fs.tlsDirExists = true →
        (fs.privateKeyFile.isSome = true ∨ fs.publicKeyFile.isSome = true) →
        createRSAKeyPair env fs = (.ok (), fs)) ∧
    (∀ (env₁ env₂ : KeyGenEnv) (fs fs₁ : FS),
        createRSAKeyPair env₁ fs = (.ok (), fs₁) →
        createRSAKeyPair env₂ fs₁ = (.ok (), fs₁)) := by
  have skip : ∀ (env : KeyGenEnv) (fs : FS), fs.tlsDirExists = true →
      (fs.privateKeyFile.isSome = true ∨ fs.publicKeyFile.isSome = true) →
      createRSAKeyPair env fs = (.ok (), fs) := by
    intro env fs hdir hex
    have hfs : ({ fs with tlsDirExists := true } : FS) = fs := by
      cases fs
      simp only at hdir
      simp [hdir]
    rcases hex with h | h <;>
      simp [createRSAKeyPair, hdir, hfs, h]
  refine ⟨skip, ?_⟩
  intro env₁ env₂ fs fs₁ h
  by_cases hdir : (!fs.tlsDirExists && !env₁.mkdirOk) = true
  · simp [createRSAKeyPair, hdir] at h
  · by_cases hskip : (fs.privateKeyFile.isSome || fs.publicKeyFile.isSome) = true
    · simp [createRSAKeyPair, hdir, hskip] at h
      subst h
      refine skip env₂ _ rfl ?_
      cases hp : fs.privateKeyFile with
      | some v => exact Or.inl (by simp [hp])
      | none =>
        cases hq : fs.publicKeyFile with
        | some w => exact Or.inr (by simp [hq])
        | none => simp [hp, hq] at hskip
    · rcases hgen : env₁.generateKey 4096 with e | k
      · simp [createRSAKeyPair, hdir, hskip, hgen] at h
      · by_cases hwp : env₁.writePrivateOk = true
        · by_cases hwq : env₁.writePublicOk = true
          · simp [createRSAKeyPair, hdir, hskip, hgen, hwp, hwq,
              marshalPKIXPublicKey] at h
            subst h
            exact skip env₂ _ rfl (Or.inl rfl)
          · simp [createRSAKeyPair, hdir, hskip, hgen, hwp, hwq,
              marshalPKIXPublicKey] at h
        · simp [createRSAKeyPair, hdir, hskip, hgen, hwp,
            marshalPKIXPublicKey] at h

theorem createRSAKeyPair_skip_idempotent_witness :
    createRSAKeyPair envGenDemo fsDemo = (.ok (), fsDemo) :=
  createRSAKeyPair_skip_idempotent.1 envGenDemo fsDemo rfl (Or.inl rfl)

/-! ## Claim C4: fresh generation of a 4096-bit pair -/

/-- C4: in a target directory where both key files are absent, a successful
`CreateRSAKeyPair` run obtained its key from `rsa.GenerateKey` at 4096 bits
(so, for a generator honouring the requested size, a 4096-bit key), wrote the
private key as a PKCS#1 PEM file with mode 0600 and the public key as a PKIX
PEM file with mode 0644, and the written public key is exactly the public
component of the written private key. -/
theorem createRSAKeyPair_fresh_generation (env : KeyGenEnv) (fs : FS)
    (hpriv : fs.privateKeyFile = none) (hpub : fs.publicKeyFile = none)
    (hbits : ∀ b k, env.generateKey b = .ok k → k.bitLen = b)
    (hok : (createRSAKeyPair env fs).1 = .ok ()) :
    ∃ k, env.generateKey 4096 = .ok k ∧ k.bitLen = 4096 ∧
      (createRSAKeyPair env fs).2.privateKeyFile =
        some ⟨pemEncodeToMemory rsaPrivateKeyBlockType (marshalPKCS1PrivateKey k), 0o600⟩ ∧
      ∃ pubBytes, marshalPKIXPublicKey (.rsa k.publicKey) = some pubBytes ∧
        (createRSAKeyPair env fs).2.publicKeyFile =
          some ⟨pemEncodeToMemory publicKeyBlockType pubBytes, 0o644⟩ := by
  by_cases hdir : (!fs.tlsDirExists && !env.mkdirOk) = true
  · simp [createRSAKeyPair, hdir] at hok
  · have hskip : (fs.privateKeyFile.isSome || fs.publicKeyFile.isSome) = false := by
      simp [hpriv, hpub]
    rcases hgen : env.generateKey 4096 with e | k
    · simp [createRSAKeyPair, hdir, hskip, hpriv, hpub, hgen] at hok
    · by_cases hwp : env.writePrivateOk = true
      · by_cases hwq : env.writePublicOk = true
        · refine ⟨k, rfl, hbits _ _ hgen, ?_, ⟨[1, k.publicKey.n, k.publicKey.e], rfl, ?_⟩⟩ <;>
            simp [createRSAKeyPair, hdir, hskip, hpriv, hpub, hgen, hwp, hwq,
              marshalPKIXPublicKey]
        · simp [createRSAKeyPair, hdir, hskip, hpriv, hpub, hgen, hwp, hwq,
            marshalPKIXPublicKey] at hok
      · simp [createRSAKeyPair, hdir, hskip, hpriv, hpub, hgen, hwp,
          marshalPKIXPublicKey] at hok

theorem createRSAKeyPair_fresh_generation_witness :
    ∃ k, envGenDemo.generateKey 4096 = .ok k ∧ k.bitLen = 4096 ∧
      (createRSAKeyPair envGenDemo fsEmpty).2.privateKeyFile =
        some ⟨pemEncodeToMemory rsaPrivateKeyBlockType (marshalPKCS1PrivateKey k), 0o600⟩ ∧
      ∃ pubBytes, marshalPKIXPublicKey (.rsa k.publicKey) = some pubBytes ∧
        (createRSAKeyPair envGenDemo fsEmpty).2.publicKeyFile =
          some ⟨pemEncodeToMemory publicKeyBlockType pubBytes, 0o644⟩ := by
  refine createRSAKeyPair_fresh_generation envGenDemo fsEmpty rfl rfl ?_ rfl
  intro b k h
  by_cases hb : b = 4096
  · subst hb
    have h2 : Except.ok (ε := String) kGen = .ok k := h
    obtain rfl : kGen = k := Except.ok.inj h2
    show Nat.size kGen.n = 4096
    rw [show kGen.n = 2 ^ 4095 from rfl, Nat.size_pow]
  · simp [envGenDemo, hb] at h

/-! ## Characterization of successful CreateJSONWebKeySet runs -/

theorem hexDigit_lower : ∀ n < 16, isLowerHexChar (hexDigit n) = true := by decide

theorem hexEncodeBytes_lower (b : Bytes) :
    ∀ c ∈ hexEncodeBytes b, isLowerHexChar c = true := by
  induction b with
  | nil => simp [hexEncodeBytes]
  | cons x rest ih =>
    intro c hc
    simp only [hexEncodeBytes, List.mem_cons] at hc
    rcases hc with h | h | h
    · subst h
      exact hexDigit_lower _ (by omega)
    · subst h
      exact hexDigit_lower _ (by omega)
    · exact ih c h

/-- Shared shape lemma: everything a successful `CreateJSONWebKeySet` run
determines — the parsed keys, the returned signing handle, and the persisted
key set. -/
theorem CreateJSONWebKeySet_ok (sha256 : Bytes → Bytes) (env : JwksEnv)
    (fs : FS) (handle : JWKKey) (fs' : FS)
    (h : CreateJSONWebKeySet sha256 env fs = (.ok handle, fs')) :
    ∃ (privateKey : RSAPrivateKey) (publicKey : GoPublicKey) (pubDER : Bytes),
      ParsePrivateKeyFromFile fs = .ok privateKey ∧
      ParsePublicKeyFromFile fs = .ok publicKey ∧
      marshalPKIXPublicKey publicKey = some pubDER ∧
      handle = { material := .rsaPrivate privateKey,
                 kid := some (hexEncodeToString (sha256 pubDER)),
                 keyUse := some JWKSUsage, alg := some AlgRS256 } ∧
      fs' = { fs with
              jwksFile := some [{ material := .rsaPublic privateKey.publicKey,
                                  kid := some (hexEncodeToString (sha256 pubDER)),
                                  keyUse := some JWKSUsage,
                                  alg := some AlgRS256 }] } ∧
      env.writeJwksOk = true := by
  rcases hpriv : ParsePrivateKeyFromFile fs with e | privateKey
  · simp [CreateJSONWebKeySet, hpriv] at h
  · rcases hpub : ParsePublicKeyFromFile fs with e | publicKey
    · simp [CreateJSONWebKeySet, hpriv, hpub] at h
    · rcases hm : marshalPKIXPublicKey publicKey with - | pubDER
      · simp [CreateJSONWebKeySet, hpriv, hpub, keyIDFromPublicKey, hm] at h
      · by_cases hw : env.writeJwksOk = true
        · refine ⟨privateKey, publicKey, pubDER, rfl, rfl, hm, ?_⟩
          simp [CreateJSONWebKeySet, hpriv, hpub, keyIDFromPublicKey, hm, jwkImport,
            JWKKey.setKid, JWKKey.setKeyUse, JWKKey.setAlg, jwkPublicKeyOf, hw] at h
          rcases h with ⟨h1, h2⟩
          exact ⟨h1.symm, h2.symm, hw⟩
        · simp [CreateJSONWebKeySet, hpriv, hpub, keyIDFromPublicKey, hm, jwkImport,
            JWKKey.setKid, JWKKey.setKeyUse, JWKKey.setAlg, jwkPublicKeyOf, hw] at h

/-! ## Claim C5: shape of the persisted JWKS -/

/-- C5: a successful `CreateJSONWebKeySet` run persists a key set with
exactly one entry; that entry carries only public key material, its kid is
the lowercase hex SHA-256 digest of the PKIX DER encoding of the public key,
its use is "sig" and its alg is "RS256"; the write replaces whatever the
JWKS file held before (the new content is determined independently of it). -/
theorem jwks_persisted_single_public_key (sha256 : Bytes → Bytes) (env : JwksEnv)
    (fs : FS) (handle : JWKKey) (fs' : FS)
    (h : CreateJSONWebKeySet sha256 env fs = (.ok handle, fs')) :
    ∃ (privateKey : RSAPrivateKey) (publicKey : GoPublicKey) (pubDER : Bytes),
      ParsePrivateKeyFromFile fs = .ok privateKey ∧
      ParsePublicKeyFromFile fs = .ok publicKey ∧
      marshalPKIXPublicKey publicKey = some pubDER ∧
      fs'.jwksFile = some
        [{ material := .rsaPublic privateKey.publicKey,
           kid := some (hexEncodeToString (sha256 pubDER)),
           keyUse := some JWKSUsage, alg := some AlgRS256 }] ∧
      (∀ c ∈ hexEncodeBytes (sha256 pubDER), isLowerHexChar c = true) := by
  obtain ⟨privateKey, publicKey, pubDER, h1, h2, h3, -, h5, -⟩ :=
    CreateJSONWebKeySet_ok sha256 env fs handle fs' h
  exact ⟨privateKey, publicKey, pubDER, h1, h2, h3, by rw [h5],
    hexEncodeBytes_lower _⟩

theorem jwks_persisted_single_public_key_witness :
    ∃ (privateKey : RSAPrivateKey) (publicKey : GoPublicKey) (pubDER : Bytes),
      ParsePrivateKeyFromFile fsDemo = .ok privateKey ∧
      ParsePublicKeyFromFile fsDemo = .ok publicKey ∧
      marshalPKIXPublicKey publicKey = some pubDER ∧
      fsDemoAfter.jwksFile = some
        [{ material := .rsaPublic privateKey.publicKey,
           kid := some (hexEncodeToString (shaDemo pubDER)),
           keyUse := some JWKSUsage, alg := some AlgRS256 }] ∧
      (∀ c ∈ hexEncodeBytes (shaDemo pubDER), isLowerHexChar c = true) :=
  jwks_persisted_single_public_key shaDemo jenvDemo fsDemo handleDemo fsDemoAfter rfl

/-! ## Claim C10: mislabelled public-key parse failure -/

/-- C10: when loading or parsing the public-key file fails inside
`CreateJSONWebKeySet`, the returned error is wrapped with the prefix
"failed to parse private key" — the exact prefix used when the private-key
load fails — so the two failures are indistinguishable by message prefix at
the JWKS builder's interface. -/
theorem public_key_error_prefix :
    (∀ (sha256 : Bytes → Bytes) (env : JwksEnv) (fs : FS) (e : String),
        ParsePrivateKeyFromFile fs = .error e →
        (CreateJSONWebKeySet sha256 env fs).1 =
          .err (wrapErr "failed to parse private key" e)) ∧
    (∀ (sha256 : Bytes → Bytes) (env : JwksEnv) (fs : FS)
        (k : RSAPrivateKey) (e : String),
        ParsePrivateKeyFromFile fs = .ok k →
        ParsePublicKeyFromFile fs = .error e →
        (CreateJSONWebKeySet sha256 env fs).1 =
          .err (wrapErr "failed to parse private key" e)) := by
  constructor
  · intro sha256 env fs e h
    simp [CreateJSONWebKeySet, h]
  · intro sha256 env fs k e h1 h2
    simp [CreateJSONWebKeySet, h1, h2]

theorem public_key_error_prefix_witness :
    (CreateJSONWebKeySet shaDemo jenvDemo fsNoPub).1 =
      .err (wrapErr "failed to parse private key"
        (wrapErr "failed to read public key file" "open")) :=
  public_key_error_prefix.2 shaDemo jenvDemo fsNoPub kDemo
    (wrapErr "failed to read public key file" "open") rfl rfl

/-! ## Claim C6: round-trip between the signing handle and the published key -/

theorem rsaSign_verify (k : RSAPrivateKey) (hk : ValidKeyPair k) (m : Nat)
    (hm : m < k.n) : rsaVerify k.publicKey m (rsaSign k m) = true := by
  have h1 : m % k.n = m := Nat.mod_eq_of_lt hm
  simp [rsaVerify, rsaSign, RSAPrivateKey.publicKey, h1, hk m hm]

/-- C6: the public entry persisted in the JWKS is exactly
`jwk.PublicKeyOf` of the signing-key handle `CreateJSONWebKeySet` returns
(not a key re-parsed from disk), it carries the handle's kid; consequently,
for a functionally correct key pair and a digest in range, any token
`CreateJWT` signs with the returned handle verifies under the key
reconstructed from that JWKS entry. -/
theorem jwks_signing_roundtrip (sha256 : Bytes → Bytes)
    (digest : JWTClaims → Nat) (now : Nat → Nat) (env : JwksEnv)
    (fs fs' : FS) (handle : JWKKey)
    (hrun : CreateJSONWebKeySet sha256 env fs = (.ok handle, fs'))
    (hvalid : ∀ pk, handle.material = .rsaPrivate pk → ValidKeyPair pk)
    (hdigest : ∀ pk t, handle.material = .rsaPrivate pk → digest t < pk.n) :
    ∃ entry, jwkPublicKeyOf handle = .ok entry ∧
      fs'.jwksFile = some [entry] ∧
      entry.kid = handle.kid ∧
      ∀ signed, CreateJWT digest now handle = .ok signed →
        jwtVerifyRS256 digest signed.claims signed.signature entry = true := by
  obtain ⟨privateKey, publicKey, pubDER, -, -, -, h4, h5, -⟩ :=
    CreateJSONWebKeySet_ok sha256 env fs handle fs' hrun
  subst h4
  subst h5
  refine ⟨_, rfl, rfl, rfl, ?_⟩
  intro signed hsig
  have hv := hvalid privateKey rfl
  simp only [CreateJWT, jwtSignRS256] at hsig
  obtain rfl := Except.ok.inj hsig
  exact rsaSign_verify privateKey hv _ (hdigest privateKey _ rfl)

theorem jwks_signing_roundtrip_witness :
    ∃ entry, jwkPublicKeyOf handleDemo = .ok entry ∧
      fsDemoAfter.jwksFile = some [entry] ∧
      entry.kid = handleDemo.kid ∧
      ∀ signed, CreateJWT digestDemo nowConst handleDemo = .ok signed →
        jwtVerifyRS256 digestDemo signed.claims signed.signature entry = true := by
  refine jwks_signing_roundtrip shaDemo digestDemo nowConst jenvDemo fsDemo
    fsDemoAfter handleDemo rfl ?_ ?_
  · intro pk h
    obtain rfl : kDemo = pk := JWKMaterial.rsaPrivate.inj h
    decide
  · intro pk t h
    obtain rfl : kDemo = pk := JWKMaterial.rsaPrivate.inj h
    show (5 : Nat) < 33
    decide

/-! ## Claim C7: the token validity window -/

/-- The token `CreateJWT` produces under the ticking clock: `exp` was
computed from the first reading (1000), `iat` from the second (1001). -/
def jwtTickDemo : SignedJWT :=
  { claims := { iss := JWTIssuer, aud := JWTAudience, sub := JWTSubject,
                exp := 87400, iat := 1001 },
    signature := rsaSign kDemo 5 }

/-- C7 counterexample: a run of `CreateJWT` under a clock that advances one
second between its two `time.Now()` calls yields a token with
`exp - iat = 86399`, not 86400. -/
theorem jwt_exp_iat_counterexample :
    CreateJWT digestDemo nowTick handleDemo = .ok jwtTickDemo ∧
    jwtTickDemo.claims.exp - jwtTickDemo.claims.iat = 86399 := ⟨rfl, rfl⟩

/-- C7 (amended): `exp` equals the first `time.Now()` reading plus 86400
seconds and `iat` equals the second, later reading; hence `exp - iat` is
exactly 86400 whenever the clock does not advance between the two readings
(and 86400 minus the advance otherwise). -/
theorem jwt_validity_window (digest : JWTClaims → Nat) (now : Nat → Nat)
    (key : JWKKey) (t : SignedJWT)
    (h : CreateJWT digest now key = .ok t) :
    t.claims.exp = now 0 + 86400 ∧ t.claims.iat = now 1 ∧
      (now 1 = now 0 → t.claims.exp - t.claims.iat = 86400) := by
  rcases hk : key.material with pk | pk <;>
    simp only [CreateJWT, jwtSignRS256, hk] at h
  · rcases h with ⟨rfl⟩
    refine ⟨rfl, rfl, ?_⟩
    intro he
    simp [he]
  · cases h

/-- The token `CreateJWT` produces under the constant clock. -/
def jwtConstDemo : SignedJWT :=
  { claims := { iss := JWTIssuer, aud := JWTAudience, sub := JWTSubject,
                exp := 87400, iat := 1000 },
    signature := rsaSign kDemo 5 }

theorem jwt_validity_window_witness :
    jwtConstDemo.claims.exp = nowConst 0 + 86400 ∧
    jwtConstDemo.claims.iat = nowConst 1 ∧
      (nowConst 1 = nowConst 0 →
        jwtConstDemo.claims.exp - jwtConstDemo.claims.iat = 86400) :=
  jwt_validity_window digestDemo nowConst handleDemo jwtConstDemo rfl

/-! ## Shape of the workflow trace -/

/-- Shared case analysis of `CreateIdentityProvider`: the final filesystem is
whatever the JWKS step left (later steps never touch it), the trace is one of
the five prefixes of the full step list, and a successful outcome means the
full list ran. -/
theorem CreateIdentityProvider_cases (sha256 : Bytes → Bytes)
    (digest : JWTClaims → Nat) (now : Nat → Nat) (jenv : JwksEnv)
    (cenv : CloudEnv) (bucketName region : String) (fs : FS) :
    ((CreateIdentityProvider sha256 digest now jenv cenv bucketName region fs).2.1 =
        (CreateJSONWebKeySet sha256 jenv fs).2) ∧
    ((CreateIdentityProvider sha256 digest now jenv cenv bucketName region fs).2.2 =
        [.buildJWKS] ∨
      (CreateIdentityProvider sha256 digest now jenv cenv bucketName region fs).2.2 =
        [.buildJWKS, .signJWT] ∨
      (CreateIdentityProvider sha256 digest now jenv cenv bucketName region fs).2.2 =
        [.buildJWKS, .signJWT, .resolveClient region] ∨
      (CreateIdentityProvider sha256 digest now jenv cenv bucketName region fs).2.2 =
        [.buildJWKS, .signJWT, .resolveClient region, .verifyIdentity] ∨
      (CreateIdentityProvider sha256 digest now jenv cenv bucketName region fs).2.2 =
        fullTrace bucketName region) ∧
    ((CreateIdentityProvider sha256 digest now jenv cenv bucketName region fs).1 =
        .ok () →
      (CreateIdentityProvider sha256 digest now jenv cenv bucketName region fs).2.2 =
        fullTrace bucketName region) := by
  rcases hj : CreateJSONWebKeySet sha256 jenv fs with ⟨o1, fs1⟩
  cases o1 with
  | err e => simp [CreateIdentityProvider, hj, fullTrace]
  | panicked m => simp [CreateIdentityProvider, hj, fullTrace]
  | ok k =>
    rcases hjwt : CreateJWT digest now k with e | t
    · simp [CreateIdentityProvider, hj, hjwt, fullTrace]
    · rcases hnew : cenv.newAwsFromConfig region with e | u
      · simp [CreateIdentityProvider, hj, hjwt, hnew, fullTrace]
      · rcases hid : cenv.getCallerIdentity with e | ci
        · simp [CreateIdentityProvider, hj, hjwt, hnew, hid, fullTrace]
        · rcases hcb : cenv.createBucket ⟨bucketName, region⟩ with e | loc
          · simp [CreateIdentityProvider, hj, hjwt, hnew, hid, hcb, fullTrace]
          · simp [CreateIdentityProvider, hj, hjwt, hnew, hid, hcb, fullTrace]

/-! ## Claim C1: the workflow step sequence -/

/-- C1 counterexample: a fully successful run of `CreateIdentityProvider`
executes exactly build JWKS → sign JWT → resolve cloud client → verify
identity → create bucket — which differs from the specified sequence, whose
first step is ensure-key-pair; no ensure-key-pair step is ever executed. -/
theorem createIdentityProvider_trace_counterexample :
    (CreateIdentityProvider shaDemo digestDemo nowConst jenvDemo cenvDemo
        "my-oidc-bucket" "us-east-1" fsDemo).1 = .ok () ∧
    (CreateIdentityProvider shaDemo digestDemo nowConst jenvDemo cenvDemo
        "my-oidc-bucket" "us-east-1" fsDemo).2.2 =
      fullTrace "my-oidc-bucket" "us-east-1" ∧
    fullTrace "my-oidc-bucket" "us-east-1" ≠
      specTrace "my-oidc-bucket" "us-east-1" ∧
    Ev.ensureKeyPair ∉ (CreateIdentityProvider shaDemo digestDemo nowConst
        jenvDemo cenvDemo "my-oidc-bucket" "us-east-1" fsDemo).2.2 :=
  ⟨rfl, rfl, by decide, by decide⟩

/-- C1 (amended): the workflow executes the ordered sequence build JWKS →
sign JWT → resolve cloud client → verify identity → create bucket, with no
ensure-key-pair step (existing key files are a precondition of the JWKS
step, not a step); each step's failure halts the run right there (the trace
is a prefix of the full sequence, and only a fully successful run produces
the full sequence); completed side effects are not rolled back (the final
filesystem is exactly what the JWKS step left, whatever happens later). -/
theorem createIdentityProvider_step_sequence (sha256 : Bytes → Bytes)
    (digest : JWTClaims → Nat) (now : Nat → Nat) (jenv : JwksEnv)
    (cenv : CloudEnv) (bucketName region : String) (fs : FS)
    (o : Outcome Unit) (fs' : FS) (tr : List Ev)
    (h : CreateIdentityProvider sha256 digest now jenv cenv bucketName region fs =
      (o, fs', tr)) :
    (tr <+: fullTrace bucketName region) ∧
    Ev.ensureKeyPair ∉ tr ∧
    tr.head? = some .buildJWKS ∧
    fs' = (CreateJSONWebKeySet sha256 jenv fs).2 ∧
    (o = .ok () → tr = fullTrace bucketName region) := by
  obtain ⟨h1, h2, h3⟩ :=
    CreateIdentityProvider_cases sha256 digest now jenv cenv bucketName region fs
  rw [h] at h1 h2 h3
  simp only [] at h1 h2 h3
  refine ⟨?_, ?_, ?_, h1, h3⟩
  · rcases h2 with h2 | h2 | h2 | h2 | h2 <;> rw [h2] <;> exact ⟨_, rfl⟩
  · rcases h2 with h2 | h2 | h2 | h2 | h2 <;> rw [h2] <;> simp [fullTrace]
  · rcases h2 with h2 | h2 | h2 | h2 | h2 <;> rw [h2] <;> rfl

theorem createIdentityProvider_step_sequence_witness :
    ((fullTrace "my-oidc-bucket" "us-east-1" : List Ev) <+:
        fullTrace "my-oidc-bucket" "us-east-1") ∧
    Ev.ensureKeyPair ∉ fullTrace "my-oidc-bucket" "us-east-1" ∧
    (fullTrace "my-oidc-bucket" "us-east-1").head? = some .buildJWKS ∧
    fsDemoAfter = (CreateJSONWebKeySet shaDemo jenvDemo fsDemo).2 ∧
    ((.ok () : Outcome Unit) = .ok () →
      fullTrace "my-oidc-bucket" "us-east-1" =
        fullTrace "my-oidc-bucket" "us-east-1") :=
  createIdentityProvider_step_sequence shaDemo digestDemo nowConst jenvDemo
    cenvDemo "my-oidc-bucket" "us-east-1" fsDemo (.ok ()) fsDemoAfter
    (fullTrace "my-oidc-bucket" "us-east-1") rfl

/-! ## Claim C2: no validation of empty bucket name or region -/

/-- C2 counterexample: invoking the workflow with an empty bucket name AND an
empty region does not fail before the network calls — the cloud client is
resolved, the identity call and the bucket-creation call are attempted (the
empty strings are passed straight to the cloud), and with a permissive cloud
the run even succeeds. -/
theorem empty_inputs_counterexample :
    (CreateIdentityProvider shaDemo digestDemo nowConst jenvDemo cenvDemo
        "" "" fsDemo).1 = .ok () ∧
    Ev.resolveClient "" ∈ (CreateIdentityProvider shaDemo digestDemo nowConst
        jenvDemo cenvDemo "" "" fsDemo).2.2 ∧
    Ev.callCreateBucket ⟨"", ""⟩ ∈ (CreateIdentityProvider shaDemo digestDemo
        nowConst jenvDemo cenvDemo "" "" fsDemo).2.2 :=
  ⟨rfl, by decide, by decide⟩

/-- C2 (amended): `CreateIdentityProvider` performs no emptiness validation
of its bucket-name or region arguments: whenever the local steps succeed,
the cloud-client resolution is attempted with the empty region, and — if the
client and identity calls succeed — the bucket-creation network call is
attempted with the empty bucket name and region passed through unchanged. -/
theorem empty_inputs_no_validation (sha256 : Bytes → Bytes)
    (digest : JWTClaims → Nat) (now : Nat → Nat) (jenv : JwksEnv)
    (cenv : CloudEnv) (fs : FS) (handle : JWKKey) (fs1 : FS) (t : SignedJWT)
    (ci : CallerIdentity)
    (hjwks : CreateJSONWebKeySet sha256 jenv fs = (.ok handle, fs1))
    (hjwt : CreateJWT digest now handle = .ok t)
    (hnew : cenv.newAwsFromConfig "" = .ok ())
    (hid : cenv.getCallerIdentity = .ok ci) :
    Ev.resolveClient "" ∈
      (CreateIdentityProvider sha256 digest now jenv cenv "" "" fs).2.2 ∧
    Ev.callCreateBucket ⟨"", ""⟩ ∈
      (CreateIdentityProvider sha256 digest now jenv cenv "" "" fs).2.2 := by
  rcases hcb : cenv.createBucket ⟨"", ""⟩ with e | loc <;>
    simp [CreateIdentityProvider, hjwks, hjwt, hnew, hid, hcb]

theorem empty_inputs_no_validation_witness :
    Ev.resolveClient "" ∈ (CreateIdentityProvider shaDemo digestDemo nowConst
        jenvDemo cenvDemo "" "" fsDemo).2.2 ∧
    Ev.callCreateBucket ⟨"", ""⟩ ∈ (CreateIdentityProvider shaDemo digestDemo
        nowConst jenvDemo cenvDemo "" "" fsDemo).2.2 :=
  empty_inputs_no_validation shaDemo digestDemo nowConst jenvDemo cenvDemo
    fsDemo handleDemo fsDemoAfter
    { claims := { iss := JWTIssuer, aud := JWTAudience, sub := JWTSubject,
                  exp := 87400, iat := 1000 },
      signature := rsaSign kDemo 5 }
    ciDemo rfl rfl rfl rfl

/-! ## Claim C9: a single unconditional bucket-creation request -/

def isCreateBucketEv : Ev → Bool
  | .callCreateBucket _ => true
  | _ => false

def isBucketExistsCheckEv : Ev → Bool
  | .headBucketCheck _ => true
  | _ => false

/-- Number of bucket-creation requests recorded in a trace. -/
def numBucketRequests (tr : List Ev) : Nat := (tr.filter isCreateBucketEv).length

/-- C9: the workflow issues at most one bucket-creation request, and exactly
one on any run that reaches the bucket step; the request carries the
caller-supplied bucket name with the location constraint set to the
caller-supplied region; no existence check ever precedes it (none occurs at
all); and a failing request — whatever its cause, including a pre-existing
bucket — is reported as a wrapped failure with no retry (still exactly one
request). -/
theorem create_bucket_single_request (sha256 : Bytes → Bytes)
    (digest : JWTClaims → Nat) (now : Nat → Nat) (jenv : JwksEnv)
    (cenv : CloudEnv) (bucketName region : String) (fs : FS) :
    numBucketRequests
        (CreateIdentityProvider sha256 digest now jenv cenv bucketName region fs).2.2 ≤ 1 ∧
    (∀ input, Ev.callCreateBucket input ∈
        (CreateIdentityProvider sha256 digest now jenv cenv bucketName region fs).2.2 →
      input = ⟨bucketName, region⟩) ∧
    ((CreateIdentityProvider sha256 digest now jenv cenv bucketName region fs).2.2.filter
        isBucketExistsCheckEv) = [] ∧
    (∀ (handle : JWKKey) (fs1 : FS) (t : SignedJWT) (ci : CallerIdentity) (e : String),
      CreateJSONWebKeySet sha256 jenv fs = (.ok handle, fs1) →
      CreateJWT digest now handle = .ok t →
      cenv.newAwsFromConfig region = .ok () →
      cenv.getCallerIdentity = .ok ci →
      cenv.createBucket ⟨bucketName, region⟩ = .error e →
      (CreateIdentityProvider sha256 digest now jenv cenv bucketName region fs).1 =
          .err (wrapErr "failed to create S3 bucket" e) ∧
        numBucketRequests
          (CreateIdentityProvider sha256 digest now jenv cenv bucketName region fs).2.2 = 1) := by
  obtain ⟨-, h2, -⟩ :=
    CreateIdentityProvider_cases sha256 digest now jenv cenv bucketName region fs
  refine ⟨?_, ?_, ?_, ?_⟩
  · rcases h2 with h | h | h | h | h <;> rw [h] <;>
      simp [numBucketRequests, List.filter, isCreateBucketEv, fullTrace]
  · intro input hin
    rcases h2 with h | h | h | h | h <;> rw [h] at hin <;>
      simp [fullTrace] at hin
    exact hin
  · rcases h2 with h | h | h | h | h <;> rw [h] <;>
      simp [List.filter, isBucketExistsCheckEv, fullTrace]
  · intro handle fs1 t ci e hjwks hjwt hnew hid hcb
    constructor <;>
      simp [CreateIdentityProvider, hjwks, hjwt, hnew, hid, hcb,
        numBucketRequests, List.filter, isCreateBucketEv]

theorem create_bucket_single_request_witness :
    numBucketRequests (CreateIdentityProvider shaDemo digestDemo nowConst
      jenvDemo cenvDemo "my-oidc-bucket" "us-east-1" fsDemo).2.2 ≤ 1 :=
  (create_bucket_single_request shaDemo digestDemo nowConst jenvDemo cenvDemo
    "my-oidc-bucket" "us-east-1" fsDemo).1

/-! ## Claim C8: error wrapping versus the panic in keyIDFromPublicKey -/

/-- C8 counterexample: `keyIDFromPublicKey` has a failure path that panics
rather than returning a wrapped error — on a value its PKIX marshalling step
rejects, the function panics. -/
theorem keyID_panic_counterexample :
    keyIDFromPublicKey shaDemo (.raw 0) =
      .panicked (wrapErr "failed to marshal public key" "marshal") := rfl

/-- `x509.ParsePKIXPublicKey` never yields a key that
`x509.MarshalPKIXPublicKey` rejects. -/
theorem parsePKIX_not_raw (b : Bytes) (tag : Nat) :
    parsePKIXPublicKey b ≠ some (.raw tag) := by
  unfold parsePKIXPublicKey
  split <;> simp

/-- Hence the public key loaded from disk is never unmarshalable. -/
theorem ParsePublicKeyFromFile_not_raw (fs : FS) (tag : Nat) :
    ParsePublicKeyFromFile fs ≠ .ok (.raw tag) := by
  intro h
  rcases hf : fs.publicKeyFile with - | fd
  · simp [ParsePublicKeyFromFile, hf] at h
  · rcases hd : pemDecode fd.content with - | ⟨t, der⟩
    · simp [ParsePublicKeyFromFile, hf, hd] at h
    · rcases hp : parsePKIXPublicKey der with - | pk
      · simp [ParsePublicKeyFromFile, hf, hd, hp] at h
      · simp [ParsePublicKeyFromFile, hf, hd, hp] at h
        exact parsePKIX_not_raw der tag (by rw [hp, h])

/-- Every error `createRSAKeyPair` returns carries one of the function's
descriptive wrap prefixes. -/
theorem createRSAKeyPair_err_shape (env : KeyGenEnv) (fs : FS) (e : String)
    (h : (createRSAKeyPair env fs).1 = .error e) :
    ∃ u, e = wrapErr "failed to create directory for RSA keys" u ∨
      e = wrapErr "failed to generate RSA private key" u ∨
      e = wrapErr "failed to marshal public key" u ∨
      e = wrapErr "failed to write private key to file" u ∨
      e = wrapErr "failed to write public key to file" u := by
  by_cases hdir : (!fs.tlsDirExists && !env.mkdirOk) = true
  · simp [createRSAKeyPair, hdir] at h
    exact ⟨"mkdir", Or.inl h.symm⟩
  · by_cases hskip : (fs.privateKeyFile.isSome || fs.publicKeyFile.isSome) = true
    · simp [createRSAKeyPair, hdir, hskip] at h
    · rcases hgen : env.generateKey 4096 with e1 | k
      · simp [createRSAKeyPair, hdir, hskip, hgen] at h
        exact ⟨e1, Or.inr (Or.inl h.symm)⟩
      · by_cases hwp : env.writePrivateOk = true
        · by_cases hwq : env.writePublicOk = true
          · simp [createRSAKeyPair, hdir, hskip, hgen, hwp, hwq,
              marshalPKIXPublicKey] at h
          · simp [createRSAKeyPair, hdir, hskip, hgen, hwp, hwq,
              marshalPKIXPublicKey] at h
            exact ⟨"write", Or.inr (Or.inr (Or.inr (Or.inr h.symm)))⟩
        · simp [createRSAKeyPair, hdir, hskip, hgen, hwp,
            marshalPKIXPublicKey] at h
          exact ⟨"write", Or.inr (Or.inr (Or.inr (Or.inl h.symm)))⟩

/-- Every error `CreateJSONWebKeySet` returns carries one of its wrap
prefixes (the two live error sources are key parsing and the file write). -/
theorem CreateJSONWebKeySet_err_shape (sha256 : Bytes → Bytes) (env : JwksEnv)
    (fs : FS) (e : String) (h : (CreateJSONWebKeySet sha256 env fs).1 = .err e) :
    ∃ u, e = wrapErr "failed to parse private key" u ∨
      e = wrapErr "failed to write JWK Set to file" u := by
  rcases hpriv : ParsePrivateKeyFromFile fs with e1 | privateKey
  · simp [CreateJSONWebKeySet, hpriv] at h
    exact ⟨e1, Or.inl h.symm⟩
  · rcases hpub : ParsePublicKeyFromFile fs with e1 | publicKey
    · simp [CreateJSONWebKeySet, hpriv, hpub] at h
      exact ⟨e1, Or.inl h.symm⟩
    · rcases hm : marshalPKIXPublicKey publicKey with - | pubDER
      · simp [CreateJSONWebKeySet, hpriv, hpub, keyIDFromPublicKey, hm] at h
      · by_cases hw : env.writeJwksOk = true
        · simp [CreateJSONWebKeySet, hpriv, hpub, keyIDFromPublicKey, hm,
            jwkImport, JWKKey.setKid, JWKKey.setKeyUse, JWKKey.setAlg,
            jwkPublicKeyOf, hw] at h
        · simp [CreateJSONWebKeySet, hpriv, hpub, keyIDFromPublicKey, hm,
            jwkImport, JWKKey.setKid, JWKKey.setKeyUse, JWKKey.setAlg,
            jwkPublicKeyOf, hw] at h
          exact ⟨"write", Or.inr h.symm⟩

/-- Every panic escaping `CreateJSONWebKeySet` is the marshal panic of
`keyIDFromPublicKey`, raised on the public key parsed from disk. -/
theorem CreateJSONWebKeySet_panic_shape (sha256 : Bytes → Bytes)
    (env : JwksEnv) (fs : FS) (m : String)
    (h : (CreateJSONWebKeySet sha256 env fs).1 = .panicked m) :
    m = wrapErr "failed to marshal public key" "marshal" ∧
    ∃ publicKey, ParsePublicKeyFromFile fs = .ok publicKey ∧
      keyIDFromPublicKey sha256 publicKey = .panicked m := by
  rcases hpriv : ParsePrivateKeyFromFile fs with e1 | privateKey
  · simp [CreateJSONWebKeySet, hpriv] at h
  · rcases hpub : ParsePublicKeyFromFile fs with e1 | publicKey
    · simp [CreateJSONWebKeySet, hpriv, hpub] at h
    · rcases hm : marshalPKIXPublicKey publicKey with - | pubDER
      · simp [CreateJSONWebKeySet, hpriv, hpub, keyIDFromPublicKey, hm] at h
        exact ⟨h.symm, publicKey, rfl, by simp [keyIDFromPublicKey, hm, h]⟩
      · by_cases hw : env.writeJwksOk = true <;>
          simp [CreateJSONWebKeySet, hpriv, hpub, keyIDFromPublicKey, hm,
            jwkImport, JWKKey.setKid, JWKKey.setKeyUse, JWKKey.setAlg,
            jwkPublicKeyOf, hw] at h

/-- Every error `CreateJWT` returns carries the signing wrap prefix. -/
theorem CreateJWT_err_shape (digest : JWTClaims → Nat) (now : Nat → Nat)
    (key : JWKKey) (e : String) (h : CreateJWT digest now key = .error e) :
    ∃ u, e = wrapErr "failed to sign JWT token" u := by
  rcases hk : key.material with pk | pk
  · simp [CreateJWT, jwtSignRS256, hk] at h
  · simp [CreateJWT, jwtSignRS256, hk] at h
    exact ⟨"cannot sign with a public key", h.symm⟩

/-- Every error `CreateIdentityProvider` returns carries the wrap prefix of
the step that failed. -/
theorem CreateIdentityProvider_err_shape (sha256 : Bytes → Bytes)
    (digest : JWTClaims → Nat) (now : Nat → Nat) (jenv : JwksEnv)
    (cenv : CloudEnv) (bucketName region : String) (fs : FS) (e : String)
    (h : (CreateIdentityProvider sha256 digest now jenv cenv bucketName region fs).1 =
      .err e) :
    ∃ u, e = wrapErr "failed to create JSON Web Key Set" u ∨
      e = wrapErr "failed to create JWT" u ∨
      e = wrapErr "failed to create AWS client" u ∨
      e = wrapErr "failed to get AWS client identity" u ∨
      e = wrapErr "failed to create S3 bucket" u := by
  rcases hj : CreateJSONWebKeySet sha256 jenv fs with ⟨o1, fs1⟩
  cases o1 with
  | err e1 =>
    simp [CreateIdentityProvider, hj] at h
    exact ⟨e1, Or.inl h.symm⟩
  | panicked m => simp [CreateIdentityProvider, hj] at h
  | ok k =>
    rcases hjwt : CreateJWT digest now k with e1 | t
    · simp [CreateIdentityProvider, hj, hjwt] at h
      exact ⟨e1, Or.inr (Or.inl h.symm)⟩
    · rcases hnew : cenv.newAwsFromConfig region with e1 | u0
      · simp [CreateIdentityProvider, hj, hjwt, hnew] at h
        exact ⟨e1, Or.inr (Or.inr (Or.inl h.symm))⟩
      · rcases hid : cenv.getCallerIdentity with e1 | ci
        · simp [CreateIdentityProvider, hj, hjwt, hnew, hid] at h
          exact ⟨e1, Or.inr (Or.inr (Or.inr (Or.inl h.symm)))⟩
        · rcases hcb : cenv.createBucket ⟨bucketName, region⟩ with e1 | loc
          · simp [CreateIdentityProvider, hj, hjwt, hnew, hid, hcb] at h
            exact ⟨e1, Or.inr (Or.inr (Or.inr (Or.inr h.symm)))⟩
          · simp [CreateIdentityProvider, hj, hjwt, hnew, hid, hcb] at h

/-- Every panic escaping `CreateIdentityProvider` is a panic of the JWKS
step (hence, by `CreateJSONWebKeySet_panic_shape`, of key-ID derivation). -/
theorem CreateIdentityProvider_panic_shape (sha256 : Bytes → Bytes)
    (digest : JWTClaims → Nat) (now : Nat → Nat) (jenv : JwksEnv)
    (cenv : CloudEnv) (bucketName region : String) (fs : FS) (m : String)
    (h : (CreateIdentityProvider sha256 digest now jenv cenv bucketName region fs).1 =
      .panicked m) :
    (CreateJSONWebKeySet sha256 jenv fs).1 = .panicked m := by
  rcases hj : CreateJSONWebKeySet sha256 jenv fs with ⟨o1, fs1⟩
  cases o1 with
  | err e1 => simp [CreateIdentityProvider, hj] at h
  | panicked m0 =>
    simp [CreateIdentityProvider, hj] at h
    simp [h]
  | ok k =>
    rcases hjwt : CreateJWT digest now k with e1 | t
    · simp [CreateIdentityProvider, hj, hjwt] at h
    · rcases hnew : cenv.newAwsFromConfig region with e1 | u0
      · simp [CreateIdentityProvider, hj, hjwt, hnew] at h
      · rcases hid : cenv.getCallerIdentity with e1 | ci
        · simp [CreateIdentityProvider, hj, hjwt, hnew, hid] at h
        · rcases hcb : cenv.createBucket ⟨bucketName, region⟩ with e1 | loc <;>
            simp [CreateIdentityProvider, hj, hjwt, hnew, hid, hcb] at h

/-- C8 (amended): every internal failure of the core workflow — directory
creation, key generation, either file write, key parsing, the JWKS file
write, JWT signing, and each of the three cloud calls (client resolution,
identity verification, bucket creation) — is wrapped with a descriptive
prefix and returned as an error up the call chain, and a failing oracle is
never silently swallowed; the sole exception is the public-key marshal
failure inside `keyIDFromPublicKey`, which panics instead of returning an
error, and every panic escaping the workflow is exactly that one.
Conjuncts: (1) the marshal panic; (2) completeness of the wrapped error
forms of `createRSAKeyPair` and (3–6) its four failure paths; (7)
completeness for `CreateJSONWebKeySet`, (8–9) its parse and write failure
paths, (10) its only panic source; (11) completeness for `CreateJWT` and
(12) its signing failure; (13) completeness for `CreateIdentityProvider`,
(14–18) its five step-failure paths including all three cloud calls, and
(19) its only panic source. -/
theorem error_wrapping_policy :
    (∀ (sha256 : Bytes → Bytes) (pk : GoPublicKey),
        marshalPKIXPublicKey pk = none →
        keyIDFromPublicKey sha256 pk =
          .panicked (wrapErr "failed to marshal public key" "marshal")) ∧
    (∀ (env : KeyGenEnv) (fs : FS) (e : String),
        (createRSAKeyPair env fs).1 = .error e →
        ∃ u, e = wrapErr "failed to create directory for RSA keys" u ∨
          e = wrapErr "failed to generate RSA private key" u ∨
          e = wrapErr "failed to marshal public key" u ∨
          e = wrapErr "failed to write private key to file" u ∨
          e = wrapErr "failed to write public key to file" u) ∧
    (∀ (env : KeyGenEnv) (fs : FS),
        fs.tlsDirExists = false → env.mkdirOk = false →
        (createRSAKeyPair env fs).1 =
          .error (wrapErr "failed to create directory for RSA keys" "mkdir")) ∧
    (∀ (env : KeyGenEnv) (fs : FS) (e : String),
        fs.tlsDirExists = true → fs.privateKeyFile = none →
        fs.publicKeyFile = none → env.generateKey 4096 = .error e →
        (createRSAKeyPair env fs).1 =
          .error (wrapErr "failed to generate RSA private key" e)) ∧
    (∀ (env : KeyGenEnv) (fs : FS) (k : RSAPrivateKey),
        fs.tlsDirExists = true → fs.privateKeyFile = none →
        fs.publicKeyFile = none → env.generateKey 4096 = .ok k →
        env.writePrivateOk = false →
        (createRSAKeyPair env fs).1 =
          .error (wrapErr "failed to write private key to file" "write")) ∧
    (∀ (env : KeyGenEnv) (fs : FS) (k : RSAPrivateKey),
        fs.tlsDirExists = true → fs.privateKeyFile = none →
        fs.publicKeyFile = none → env.generateKey 4096 = .ok k →
        env.writePrivateOk = true → env.writePublicOk = false →
        (createRSAKeyPair env fs).1 =
          .error (wrapErr "failed to write public key to file" "write")) ∧
    (∀ (sha256 : Bytes → Bytes) (env : JwksEnv) (fs : FS) (e : String),
        (CreateJSONWebKeySet sha256 env fs).1 = .err e →
        ∃ u, e = wrapErr "failed to parse private key" u ∨
          e = wrapErr "failed to write JWK Set to file" u) ∧
    (∀ (sha256 : Bytes → Bytes) (env : JwksEnv) (fs : FS) (e : String),
        ParsePrivateKeyFromFile fs = .error e →
        (CreateJSONWebKeySet sha256 env fs).1 =
          .err (wrapErr "failed to parse private key" e)) ∧
    (∀ (sha256 : Bytes → Bytes) (env : JwksEnv) (fs : FS)
        (k : RSAPrivateKey) (p : GoPublicKey),
        ParsePrivateKeyFromFile fs = .ok k →
        ParsePublicKeyFromFile fs = .ok p → env.writeJwksOk = false →
        (CreateJSONWebKeySet sha256 env fs).1 =
          .err (wrapErr "failed to write JWK Set to file" "write")) ∧
    (∀ (sha256 : Bytes → Bytes) (env : JwksEnv) (fs : FS) (m : String),
        (CreateJSONWebKeySet sha256 env fs).1 = .panicked m →
        m = wrapErr "failed to marshal public key" "marshal" ∧
        ∃ publicKey, ParsePublicKeyFromFile fs = .ok publicKey ∧
          keyIDFromPublicKey sha256 publicKey = .panicked m) ∧
    (∀ (digest : JWTClaims → Nat) (now : Nat → Nat) (key : JWKKey) (e : String),
        CreateJWT digest now key = .error e →
        ∃ u, e = wrapErr "failed to sign JWT token" u) ∧
    (∀ (digest : JWTClaims → Nat) (now : Nat → Nat) (key : JWKKey)
        (pk : RSAPublicKey), key.material = .rsaPublic pk →
        CreateJWT digest now key =
          .error (wrapErr "failed to sign JWT token"
            "cannot sign with a public key")) ∧
    (∀ (sha256 : Bytes → Bytes) (digest : JWTClaims → Nat) (now : Nat → Nat)
        (jenv : JwksEnv) (cenv : CloudEnv) (bucketName region : String)
        (fs : FS) (e : String),
        (CreateIdentityProvider sha256 digest now jenv cenv bucketName region fs).1 =
          .err e →
        ∃ u, e = wrapErr "failed to create JSON Web Key Set" u ∨
          e = wrapErr "failed to create JWT" u ∨
          e = wrapErr "failed to create AWS client" u ∨
          e = wrapErr "failed to get AWS client identity" u ∨
          e = wrapErr "failed to create S3 bucket" u) ∧
    (∀ (sha256 : Bytes → Bytes) (digest : JWTClaims → Nat) (now : Nat → Nat)
        (jenv : JwksEnv) (cenv : CloudEnv) (bucketName region : String)
        (fs : FS) (e : String),
        (CreateJSONWebKeySet sha256 jenv fs).1 = .err e →
        (CreateIdentityProvider sha256 digest now jenv cenv bucketName region fs).1 =
          .err (wrapErr "failed to create JSON Web Key Set" e)) ∧
    (∀ (sha256 : Bytes → Bytes) (digest : JWTClaims → Nat) (now : Nat → Nat)
        (jenv : JwksEnv) (cenv : CloudEnv) (bucketName region : String)
        (fs : FS) (handle : JWKKey) (fs1 : FS) (e : String),
        CreateJSONWebKeySet sha256 jenv fs = (.ok handle, fs1) →
        CreateJWT digest now handle = .error e →
        (CreateIdentityProvider sha256 digest now jenv cenv bucketName region fs).1 =
          .err (wrapErr "failed to create JWT" e)) ∧
    (∀ (sha256 : Bytes → Bytes) (digest : JWTClaims → Nat) (now : Nat → Nat)
        (jenv : JwksEnv) (cenv : CloudEnv) (bucketName region : String)
        (fs : FS) (handle : JWKKey) (fs1 : FS) (t : SignedJWT) (e : String),
        CreateJSONWebKeySet sha256 jenv fs = (.ok handle, fs1) →
        CreateJWT digest now handle = .ok t →
        cenv.newAwsFromConfig region = .error e →
        (CreateIdentityProvider sha256 digest now jenv cenv bucketName region fs).1 =
          .err (wrapErr "failed to create AWS client" e)) ∧
    (∀ (sha256 : Bytes → Bytes) (digest : JWTClaims → Nat) (now : Nat → Nat)
        (jenv : JwksEnv) (cenv : CloudEnv) (bucketName region : String)
        (fs : FS) (handle : JWKKey) (fs1 : FS) (t : SignedJWT) (e : String),
        CreateJSONWebKeySet sha256 jenv fs = (.ok handle, fs1) →
        CreateJWT digest now handle = .ok t →
        cenv.newAwsFromConfig region = .ok () →
        cenv.getCallerIdentity = .error e →
        (CreateIdentityProvider sha256 digest now jenv cenv bucketName region fs).1 =
          .err (wrapErr "failed to get AWS client identity" e)) ∧
    (∀ (sha256 : Bytes → Bytes) (digest : JWTClaims → Nat) (now : Nat → Nat)
        (jenv : JwksEnv) (cenv : CloudEnv) (bucketName region : String)
        (fs : FS) (handle : JWKKey) (fs1 : FS) (t : SignedJWT)
        (ci : CallerIdentity) (e : String),
        CreateJSONWebKeySet sha256 jenv fs = (.ok handle, fs1) →
        CreateJWT digest now handle = .ok t →
        cenv.newAwsFromConfig region = .ok () →
        cenv.getCallerIdentity = .ok ci →
        cenv.createBucket ⟨bucketName, region⟩ = .error e →
        (CreateIdentityProvider sha256 digest now jenv cenv bucketName region fs).1 =
          .err (wrapErr "failed to create S3 bucket" e)) ∧
    (∀ (sha256 : Bytes → Bytes) (digest : JWTClaims → Nat) (now : Nat → Nat)
        (jenv : JwksEnv) (cenv : CloudEnv) (bucketName region : String)
        (fs : FS) (m : String),
        (CreateIdentityProvider sha256 digest now jenv cenv bucketName region fs).1 =
          .panicked m →
        (CreateJSONWebKeySet sha256 jenv fs).1 = .panicked m) := by
  refine ⟨?_, createRSAKeyPair_err_shape, ?_, ?_, ?_, ?_,
    CreateJSONWebKeySet_err_shape, ?_, ?_, CreateJSONWebKeySet_panic_shape,
    CreateJWT_err_shape, ?_, CreateIdentityProvider_err_shape, ?_, ?_, ?_, ?_,
    ?_, CreateIdentityProvider_panic_shape⟩
  · intro sha256 pk h
    simp [keyIDFromPublicKey, h]
  · intro env fs h1 h2
    simp [createRSAKeyPair, h1, h2]
  · intro env fs e hdir hpriv hpub hgen
    simp [createRSAKeyPair, hdir, hpriv, hpub, hgen]
  · intro env fs k hdir hpriv hpub hgen hwp
    simp [createRSAKeyPair, hdir, hpriv, hpub, hgen, hwp, marshalPKIXPublicKey]
  · intro env fs k hdir hpriv hpub hgen hwp hwq
    simp [createRSAKeyPair, hdir, hpriv, hpub, hgen, hwp, hwq,
      marshalPKIXPublicKey]
  · intro sha256 env fs e h
    simp [CreateJSONWebKeySet, h]
  · intro sha256 env fs k p hpriv hpub hw
    rcases p with pk | tag | tag
    · simp [CreateJSONWebKeySet, hpriv, hpub, keyIDFromPublicKey,
        marshalPKIXPublicKey, jwkImport, JWKKey.setKid, JWKKey.setKeyUse,
        JWKKey.setAlg, jwkPublicKeyOf, hw]
    · simp [CreateJSONWebKeySet, hpriv, hpub, keyIDFromPublicKey,
        marshalPKIXPublicKey, jwkImport, JWKKey.setKid, JWKKey.setKeyUse,
        JWKKey.setAlg, jwkPublicKeyOf, hw]
    · exact absurd hpub (ParsePublicKeyFromFile_not_raw fs tag)
  · intro digest now key pk h
    simp [CreateJWT, jwtSignRS256, h]
  · intro sha256 digest now jenv cenv bucketName region fs e h
    rcases hj : CreateJSONWebKeySet sha256 jenv fs with ⟨o1, fs1⟩
    rw [hj] at h
    cases o1 <;> simp_all [CreateIdentityProvider, hj]
  · intro sha256 digest now jenv cenv bucketName region fs handle fs1 e hj hjwt
    simp [CreateIdentityProvider, hj, hjwt]
  · intro sha256 digest now jenv cenv bucketName region fs handle fs1 t e hj hjwt hnew
    simp [CreateIdentityProvider, hj, hjwt, hnew]
  · intro sha256 digest now jenv cenv bucketName region fs handle fs1 t e hj hjwt
      hnew hid
    simp [CreateIdentityProvider, hj, hjwt, hnew, hid]
  · intro sha256 digest now jenv cenv bucketName region fs handle fs1 t ci e hj
      hjwt hnew hid hcb
    simp [CreateIdentityProvider, hj, hjwt, hnew, hid, hcb]

/-- A JWKS environment whose `os.WriteFile` call fails. -/
def jenvNoWrite : JwksEnv := ⟨false⟩

/-- A cloud whose bucket-creation call fails (for instance because the
bucket already exists). -/
def cenvBucketFail : CloudEnv where
  newAwsFromConfig := fun _ => .ok ()
  getCallerIdentity := .ok ciDemo
  createBucket := fun _ => .error "BucketAlreadyExists"

theorem error_wrapping_policy_witness :
    keyIDFromPublicKey shaDemo (.raw 7) =
      .panicked (wrapErr "failed to marshal public key" "marshal") ∧
    (CreateJSONWebKeySet shaDemo jenvNoWrite fsDemo).1 =
      .err (wrapErr "failed to write JWK Set to file" "write") ∧
    (CreateIdentityProvider shaDemo digestDemo nowConst jenvDemo cenvBucketFail
        "my-oidc-bucket" "us-east-1" fsDemo).1 =
      .err (wrapErr "failed to create S3 bucket" "BucketAlreadyExists") := by
  obtain ⟨h1, -, -, -, -, -, -, -, h9, -, -, -, -, -, -, -, -, h18, -⟩ :=
    error_wrapping_policy
  exact ⟨h1 shaDemo (.raw 7) rfl,
    h9 shaDemo jenvNoWrite fsDemo kDemo (.rsa ⟨33, 3⟩) rfl rfl rfl,
    h18 shaDemo digestDemo nowConst jenvDemo cenvBucketFail "my-oidc-bucket"
      "us-east-1" fsDemo handleDemo fsDemoAfter jwtConstDemo ciDemo
      "BucketAlreadyExists" rfl rfl rfl rfl rfl⟩

end AwsOidcSts
